import Mathlib

/-!
Verification of `src/pybricksdev/ev3dev.py` (EV3 Pybricks SSH wrapper).

The file embeds the module as executable Lean definitions:

* posix path helpers (`os.path.join`, `os.path.split` with `sep = "/"`),
  exactly as `posixpath` computes them on the strings the module passes;
* the remote SFTP filesystem as an explicit state (`Remote`) recording the
  set of existing paths plus traces of every `exists` and `mkdir` call, so
  that mutation counts of `EV3SSH.pybricks`-style directory syncing are
  observable;
* the module-level connection cache `_connections` as an association list
  inside `ConnState`, and `_get_connection` as a state-passing function
  parameterised over an environment (`SSHEnv`) describing how the transport
  behaves (probe outcome per handle, whether `asyncssh.connect` and the
  SFTP setup succeed);
* `EV3SSH.disconnect` over an optional client whose `sftp` attribute is
  optional, mirroring Python attribute presence;
* the stderr polling loop of `EV3SSH.pybricks` as a fold over per-iteration
  observations (exit status seen at the `while` test, then the result of
  the `wait_for(readline, 0.1)` read: a line, or a timeout);
* the cooperative (asyncio) interleaving of two `_get_connection` tasks as
  a small-step machine whose suspension points are exactly the `await`
  expressions of the source.
-/

namespace Ev3dev

/-! ## Posix path helpers

`os.path` on a posix host: `sep = "/"`, `join` and `split` as implemented
in `posixpath`. The module only ever calls these two. -/

def sep : String := "/"

def _HOME : String := "/home/robot"

/-- `b.startswith(sep)` for the one-character posix separator. -/
def headIsSlash (s : String) : Bool :=
  match s.data with
  | [] => false
  | c :: _ => c = '/'

/-- `a.endswith(sep)` for the one-character posix separator. -/
def lastIsSlash (s : String) : Bool :=
  match s.data.reverse with
  | [] => false
  | c :: _ => c = '/'

/-- `posixpath.join a b`: if `b` is absolute it wins; if `a` is empty or
ends with the separator, concatenate; otherwise insert one separator. -/
def pathJoin (a b : String) : String :=
  if headIsSlash b then b
  else if a = "" then b
  else if lastIsSlash a then a ++ b
  else a ++ sep ++ b

/-- Python `s.split("/")`: split a character list at every slash.  The
empty string yields one empty segment, exactly as `"".split("/")` returns
`[""]`. -/
def splitSlashes : List Char → List (List Char)
  | [] => [[]]
  | c :: rest =>
    if c = '/' then [] :: splitSlashes rest
    else
      match splitSlashes rest with
      | seg :: segs => (c :: seg) :: segs
      | [] => [[c]]

/-- `dirs.split(sep)` of the source, with `sep = "/"`. -/
def pySplitSep (s : String) : List String :=
  (splitSlashes s.data).map String.mk

/-- Drop every trailing slash of a character list (Python `rstrip("/")`). -/
def rstripSlashes (l : List Char) : List Char :=
  (l.reverse.dropWhile (fun c => c = '/')).reverse

/-- `posixpath.split p`: the tail is everything after the last slash; the
head is everything up to and including the last slash, with trailing
slashes stripped unless the head consists of slashes only. -/
def pathSplit (p : String) : String × String :=
  let cs := p.data
  let tailRev := cs.reverse.takeWhile (fun c => c != '/')
  let tl := tailRev.reverse
  let hd := cs.take (cs.length - tailRev.length)
  let hd2 := if hd ≠ [] ∧ ¬ (hd.all (fun c => c = '/')) then rstripSlashes hd else hd
  (String.mk hd2, String.mk tl)

/-! ## The remote SFTP filesystem

`Remote` is the state of the remote seen through the SFTP channel.  `fs` is
the set of paths that exist; since every path the module touches is a
directory, the SFTP server treats `d` and `d/` alike, which we model by
storing and looking up slash-normalised paths.  `existsCalls` and
`mkdirCalls` record every remote `exists`/`mkdir` call in issue order, so
claims about call counts and mutations are stated on these traces.
`mkdir` is modelled as always succeeding: in the source every `mkdir` is
guarded by a failed existence check, and no claim concerns `mkdir`
failure. -/

def normalizePath (p : String) : String :=
  String.mk (rstripSlashes p.data)

structure Remote where
  fs : List String
  existsCalls : List String
  mkdirCalls : List String
  deriving DecidableEq

/-- The boolean answer of `await self.client.sftp.exists(p)`. -/
def sftpExistsQ (r : Remote) (p : String) : Bool :=
  r.fs.contains (normalizePath p)

/-- Record that an existence check for `p` was issued. -/
def logExistsCall (r : Remote) (p : String) : Remote :=
  { r with existsCalls := r.existsCalls ++ [p] }

/-- `await self.client.sftp.mkdir(p)`: the path now exists. -/
def sftpMkdir (r : Remote) (p : String) : Remote :=
  { r with fs := normalizePath p :: r.fs, mkdirCalls := r.mkdirCalls ++ [p] }

/-- One body of the per-segment loop of `EV3SSH.pybricks` (lines 70-74 of
`ev3dev.py`): check existence of the prefix, create it when absent. -/
def mkdirStep (r : Remote) (p : String) : Remote :=
  let r1 := logExistsCall r p
  if sftpExistsQ r1 p then r1 else sftpMkdir r1 p

/-- The `for name in dirs.split(sep)` loop of `EV3SSH.pybricks`: `total`
accumulates `path.join(total, name)` and each prefix is checked/created
under `_HOME`. -/
def mkdirLoop : Remote → String → List String → Remote
  | r, _, [] => r
  | r, total, name :: rest =>
    mkdirLoop (mkdirStep r (pathJoin _HOME (pathJoin total name))) (pathJoin total name) rest

/-- Lines 67-74 of `ev3dev.py`: the directory-sync step of
`EV3SSH.pybricks`.  One existence check on the full parent directory; when
it fails, the per-segment loop runs over `dirs.split(sep)` starting from
the empty accumulated path. -/
def ensureDirs (r : Remote) (dirs : String) : Remote :=
  let r1 := logExistsCall r (pathJoin _HOME dirs)
  if sftpExistsQ r1 (pathJoin _HOME dirs) then r1
  else mkdirLoop r1 "" (pySplitSep dirs)

/-- The directory-sync step applied to a file path as `EV3SSH.pybricks`
does: `dirs, file_name = path.split(file_path)` then sync `dirs`. -/
def pybricksDirSync (r : Remote) (file_path : String) : Remote :=
  ensureDirs r (pathSplit file_path).1

/-- The sequence of values the loop accumulator `total` takes. -/
def totalsFrom : String → List String → List String
  | _, [] => []
  | total, name :: rest => pathJoin total name :: totalsFrom (pathJoin total name) rest

/-! ## The connection cache and `_get_connection`

A `Client` mirrors an `asyncssh` connection object: its identity (fresh per
successful handshake) and the optional `sftp` attribute, which a brand-new
client lacks (`client.sftp.getcwd()` then raises `AttributeError`) and
which `_get_connection` sets after `start_sftp_client()`.

`ConnState` bundles the module-global `_connections` dict (an association
list keyed by address), a fresh-identity counter, a count of completed
handshakes (`asyncssh.connect` completions), and the trace of remote calls
issued, each tagged with the timeout the source wraps around it (`none`
when the call is awaited bare).

`SSHEnv` is the behaviour of the outside world: the result of running
`pwd` on a given handle, and whether `asyncssh.connect` and the SFTP setup
succeed. -/

inductive PyError where
  | keyError
  | attributeError
  | channelOpenError
  | connectionError
  | sftpError
  | otherError
  deriving DecidableEq

/-- Result of `await _connections[address].run("pwd")`.  The source catches
`AttributeError` (corrupt entry) and `asyncssh.ChannelOpenError` (dead
transport); `KeyError` can only arise from the dict lookup itself, which is
modelled by the cache lookup returning `none`.  Any other exception is
uncaught.  No timeout is applied to the probe, so a timeout outcome does
not exist. -/
inductive ProbeResult where
  | ok
  | attributeError
  | channelOpenError
  | otherError
  deriving DecidableEq

structure Client where
  id : Nat
  sftp : Option Nat
  deriving DecidableEq

structure RemoteCall where
  callName : String
  timeoutMs : Option Nat
  deriving DecidableEq

/-- `await _connections[address].run("pwd")` — awaited bare, no timeout. -/
def probeCall : RemoteCall := { callName := "run pwd", timeoutMs := none }

/-- `await asyncssh.connect(address, ...)` — awaited bare, no timeout. -/
def connectCall : RemoteCall := { callName := "asyncssh connect", timeoutMs := none }

/-- `await client.start_sftp_client()` — awaited bare, no timeout. -/
def sftpStartCall : RemoteCall := { callName := "start sftp", timeoutMs := none }

/-- `await client.sftp.chdir(_HOME)` — awaited bare, no timeout. -/
def sftpChdirCall : RemoteCall := { callName := "sftp chdir home", timeoutMs := none }

/-- `asyncio.wait_for(process.stderr.readline(), timeout=0.1)`:
the only remote call the source bounds by a timeout (100 ms). -/
def readlineCall : RemoteCall := { callName := "stderr readline", timeoutMs := some 100 }

/-- Dict lookup `_connections[address]` (as an association list). -/
def dictGet : List (String × Client) → String → Option Client
  | [], _ => none
  | (k, v) :: rest, key => if k = key then some v else dictGet rest key

/-- `_connections.pop(address, None)`: remove the key when present. -/
def dictPop : List (String × Client) → String → List (String × Client)
  | [], _ => []
  | (k, v) :: rest, key => if k = key then dictPop rest key else (k, v) :: dictPop rest key

/-- `_connections[address] = client`. -/
def dictSet (d : List (String × Client)) (key : String) (v : Client) :
    List (String × Client) :=
  (key, v) :: dictPop d key

structure ConnState where
  connections : List (String × Client)
  nextId : Nat
  handshakes : Nat
  calls : List RemoteCall
  deriving DecidableEq

structure SSHEnv where
  probe : Nat → ProbeResult
  connectOk : Bool
  sftpSetupOk : Bool

/-- Append one issued remote call to the trace. -/
def withCall (s : ConnState) (c : RemoteCall) : ConnState :=
  { s with calls := s.calls ++ [c] }

/-- The body of the `except` branch of `_get_connection` after the
`_connections.pop(address, None)` (lines 22-38 of `ev3dev.py`): connect,
then open the SFTP channel (a fresh client has no `sftp` attribute, so the
`try: await client.sftp.getcwd()` always hits `AttributeError` and the
channel is opened and positioned at `_HOME`), then store the client in the
cache.  A failure at either stage raises before the store, leaving the
cache without an entry for the address. -/
def reconnect (env : SSHEnv) (address : String) (s : ConnState) :
    Except PyError Client × ConnState :=
  let s1 := withCall s connectCall
  if env.connectOk then
    let cid := s1.nextId
    let s2 := { s1 with nextId := s1.nextId + 1, handshakes := s1.handshakes + 1 }
    if env.sftpSetupOk then
      let client : Client := { id := cid, sftp := some cid }
      let s3 := withCall (withCall s2 sftpStartCall) sftpChdirCall
      (.ok client, { s3 with connections := dictSet s3.connections address client })
    else (.error .sftpError, s2)
  else (.error .connectionError, s1)

/-- Lines 12-42 of `ev3dev.py`.  The Python function mutates the global
dict even when it raises, so the final `ConnState` is returned alongside
the `Except` result.  A cache hit issues the probe; on `.ok` the cached
client is returned with no further remote call.  `AttributeError` and
`ChannelOpenError` are caught: the entry is popped and the reconnect path
runs.  Any other probe exception is uncaught and propagates with the cache
left untouched.  A cache miss (`KeyError`) goes straight to the reconnect
path (the `pop` there is a no-op). -/
def _get_connection (env : SSHEnv) (address : String) (s : ConnState) :
    Except PyError Client × ConnState :=
  match dictGet s.connections address with
  | some client =>
    let s1 := withCall s probeCall
    match env.probe client.id with
    | .ok => (.ok client, s1)
    | .attributeError => reconnect env address { s1 with connections := dictPop s1.connections address }
    | .channelOpenError => reconnect env address { s1 with connections := dictPop s1.connections address }
    | .otherError => (.error .otherError, s1)
  | none => reconnect env address { s with connections := dictPop s.connections address }

/-! ## The `EV3SSH` facade -/

structure EV3SSH where
  client : Option Client
  deriving DecidableEq

/-- `EV3SSH.connect`: `self.client = await _get_connection(address)`.  On
an error the attribute is left as it was. -/
def EV3SSH.connect (env : SSHEnv) (self : EV3SSH) (address : String) (s : ConnState) :
    (EV3SSH × Except PyError Client) × ConnState :=
  match _get_connection env address s with
  | (.ok c, s1) => (({ client := some c }, .ok c), s1)
  | (.error e, s1) => ((self, .error e), s1)

inductive CloseEvent where
  | sftpExit (chan : Nat)
  | connClose (clientId : Nat)
  deriving DecidableEq

/-- Lines 56-59 of `ev3dev.py`:
`self.client.sftp.exit()` then `self.client.close()`, with no exception
handling and no access to `_connections` (the cache argument is returned
verbatim because the source never touches it here).  When the session has
no `client` attribute (its connect raised), or the client has no `sftp`
attribute, the attribute access raises `AttributeError`, which propagates.
The two close calls themselves are synchronous, non-raising channel
shutdowns, modelled as succeeding. -/
def EV3SSH.disconnect (self : EV3SSH) (cache : List (String × Client)) :
    Except PyError (List CloseEvent) × List (String × Client) :=
  match self.client with
  | none => (.error .attributeError, cache)
  | some c =>
    match c.sftp with
    | none => (.error .attributeError, cache)
    | some ch => (.ok [.sftpExit ch, .connClose c.id], cache)

/-! ## The stderr polling loop of `EV3SSH.pybricks`

Lines 87-94 of `ev3dev.py`:

while the exit status is absent, read one stderr line with
`asyncio.wait_for(..., timeout=0.1)`; print the stripped line, or swallow
the `TimeoutError` and loop.

Each loop iteration is summarised by one observation: the value of
`process.exit_status` at the `while` test, and — when the loop body runs —
the outcome of the bounded read (`some line`, or `none` for a timeout).
The loop is a fold over the observation list, producing the printed lines
and the trace of bounded reads it issued.  An observation with an exit
status present terminates the loop at once: everything after it in the
list is ignored, which is exactly the termination behaviour of the
`while`. -/

/-- Python `str.strip()` default whitespace (ASCII range). -/
def isPySpace (c : Char) : Bool :=
  c = ' ' || c = '\t' || c = '\n' || c = '\r' || c.val = 11 || c.val = 12

def pyStrip (s : String) : String :=
  String.mk (((s.data.dropWhile isPySpace).reverse.dropWhile isPySpace).reverse)

structure Obs where
  exitStatus : Option Int
  readResult : Option String
  deriving DecidableEq

/-- The polling loop: printed (stripped) lines and the issued bounded
reads. -/
def pybricksOutputLoop : List Obs → List String × List RemoteCall
  | [] => ([], [])
  | o :: rest =>
    match o.exitStatus with
    | some _ => ([], [])
    | none =>
      let res := pybricksOutputLoop rest
      match o.readResult with
      | some line => (pyStrip line :: res.1, readlineCall :: res.2)
      | none => (res.1, readlineCall :: res.2)

/-- The scenario of a process that emits exactly `lines` on stderr and then
exits: the loop observes each line in order (possibly with timed-out reads
in between while the stream is idle), and observes the exit status only
after the last line has been read (no buffered output remains).  The
observations after the exit are unconstrained — the loop never looks at
them. -/
inductive EmitsThenExits : List Obs → List String → Prop where
  | exit (status : Int) (rr : Option String) (rest : List Obs) :
      EmitsThenExits ({ exitStatus := some status, readResult := rr } :: rest) []
  | timeout (rest : List Obs) (ls : List String) :
      EmitsThenExits rest ls →
      EmitsThenExits ({ exitStatus := none, readResult := none } :: rest) ls
  | emit (l : String) (rest : List Obs) (ls : List String) :
      EmitsThenExits rest ls →
      EmitsThenExits ({ exitStatus := none, readResult := some l } :: rest) (l :: ls)

/-! ## Cooperative interleaving of two `_get_connection` tasks

asyncio is cooperative: a coroutine runs atomically between `await`
expressions.  `TaskPhase` is the program counter of one `_get_connection`
call at its suspension points, and `stepTask` runs one task from its
current suspension point to the next one, mirroring `_get_connection`
statement by statement:

* `start`: evaluate `_connections[address]`; a hit issues the probe and
  suspends on it; a miss (`KeyError`) runs `_connections.pop` and suspends
  on `asyncssh.connect`;
* `probing`: the probe result arrives; `.ok` finishes with the cached
  client; a caught exception pops the entry and suspends on the connect;
  an uncaught one finishes with the error;
* `connecting`: the handshake completes (or fails); on success the task
  suspends inside the SFTP setup;
* `sftpSetup`: the SFTP channel is opened and positioned, the client is
  stored in the shared cache, and the task finishes.

`interleaveTwo` runs two tasks over a schedule (`false` steps the first
task, `true` the second) against the shared `ConnState`. -/

deriving instance DecidableEq for Except

inductive TaskPhase where
  | start
  | probing (c : Client)
  | connecting
  | sftpSetup (cid : Nat)
  | finished (r : Except PyError Client)
  deriving DecidableEq

def stepTask (env : SSHEnv) (address : String) :
    TaskPhase → ConnState → TaskPhase × ConnState
  | .start, s =>
    match dictGet s.connections address with
    | some c => (.probing c, withCall s probeCall)
    | none =>
      (.connecting,
       withCall { s with connections := dictPop s.connections address } connectCall)
  | .probing c, s =>
    match env.probe c.id with
    | .ok => (.finished (.ok c), s)
    | .attributeError =>
      (.connecting,
       withCall { s with connections := dictPop s.connections address } connectCall)
    | .channelOpenError =>
      (.connecting,
       withCall { s with connections := dictPop s.connections address } connectCall)
    | .otherError => (.finished (.error .otherError), s)
  | .connecting, s =>
    if env.connectOk then
      (.sftpSetup s.nextId,
       { s with nextId := s.nextId + 1, handshakes := s.handshakes + 1 })
    else (.finished (.error .connectionError), s)
  | .sftpSetup cid, s =>
    if env.sftpSetupOk then
      let c : Client := { id := cid, sftp := some cid }
      (.finished (.ok c),
       { withCall (withCall s sftpStartCall) sftpChdirCall with
         connections := dictSet s.connections address c })
    else (.finished (.error .sftpError), s)
  | .finished r, s => (.finished r, s)

def interleaveTwo (env : SSHEnv) (address : String) :
    List Bool → TaskPhase × TaskPhase → ConnState →
    (TaskPhase × TaskPhase) × ConnState
  | [], ps, s => (ps, s)
  | b :: rest, (pA, pB), s =>
    if b then
      let r := stepTask env address pB s
      interleaveTwo env address rest (pA, r.1) r.2
    else
      let r := stepTask env address pA s
      interleaveTwo env address rest (r.1, pB) r.2

/-! ## Helper lemmas: directory sync -/

theorem sftpExistsQ_iff (r : Remote) (p : String) :
    sftpExistsQ r p = true ↔ normalizePath p ∈ r.fs := by
  simp [sftpExistsQ]

theorem logExistsCall_fs (r : Remote) (p : String) :
    (logExistsCall r p).fs = r.fs := rfl

theorem logExistsCall_mkdirCalls (r : Remote) (p : String) :
    (logExistsCall r p).mkdirCalls = r.mkdirCalls := rfl

theorem sftpExistsQ_logExistsCall (r : Remote) (p q : String) :
    sftpExistsQ (logExistsCall r p) q = sftpExistsQ r q := rfl

theorem mkdirStep_eq (r : Remote) (p : String) :
    mkdirStep r p =
      if sftpExistsQ r p then logExistsCall r p else sftpMkdir (logExistsCall r p) p := rfl

theorem mkdirStep_fs_mono (r : Remote) (p : String) (x : String) (hx : x ∈ r.fs) :
    x ∈ (mkdirStep r p).fs := by
  rw [mkdirStep_eq]
  by_cases h : sftpExistsQ r p = true
  · simpa [h, logExistsCall] using hx
  · simp only [Bool.not_eq_true] at h
    simp only [h, Bool.false_eq_true, if_false, sftpMkdir, logExistsCall, List.mem_cons]
    exact Or.inr hx

theorem mem_fs_mkdirStep (r : Remote) (p : String) :
    normalizePath p ∈ (mkdirStep r p).fs := by
  rw [mkdirStep_eq]
  by_cases h : sftpExistsQ r p = true
  · have := (sftpExistsQ_iff r p).mp h
    simpa [h, logExistsCall] using this
  · simp only [Bool.not_eq_true] at h
    simp [h, sftpMkdir, logExistsCall]

theorem mkdirStep_of_mem (r : Remote) (p : String)
    (h : normalizePath p ∈ r.fs) : mkdirStep r p = logExistsCall r p := by
  have hq : sftpExistsQ r p = true := (sftpExistsQ_iff r p).mpr h
  rw [mkdirStep_eq]
  simp [hq]

theorem mkdirLoop_fs_mono (names : List String) :
    ∀ (r : Remote) (total : String) (x : String), x ∈ r.fs →
      x ∈ (mkdirLoop r total names).fs := by
  induction names with
  | nil => intro r total x hx; simpa [mkdirLoop] using hx
  | cons name rest ih =>
    intro r total x hx
    simp only [mkdirLoop]
    exact ih _ _ x (mkdirStep_fs_mono _ _ x hx)

theorem mkdirLoop_totals (names : List String) :
    ∀ (r : Remote) (total : String), ∀ t ∈ totalsFrom total names,
      normalizePath (pathJoin _HOME t) ∈ (mkdirLoop r total names).fs := by
  induction names with
  | nil => intro r total t ht; simp [totalsFrom] at ht
  | cons name rest ih =>
    intro r total t ht
    simp only [totalsFrom, List.mem_cons] at ht
    rcases ht with h | h
    · subst h
      simp only [mkdirLoop]
      exact mkdirLoop_fs_mono rest _ _ _ (mem_fs_mkdirStep _ _)
    · simp only [mkdirLoop]
      exact ih _ _ t h

theorem mkdirLoop_noop (names : List String) :
    ∀ (r : Remote) (total : String),
      (∀ t ∈ totalsFrom total names, normalizePath (pathJoin _HOME t) ∈ r.fs) →
      (mkdirLoop r total names).fs = r.fs ∧
      (mkdirLoop r total names).mkdirCalls = r.mkdirCalls := by
  induction names with
  | nil => intro r total _; simp [mkdirLoop]
  | cons name rest ih =>
    intro r total h
    have hhead : normalizePath (pathJoin _HOME (pathJoin total name)) ∈ r.fs := by
      exact h _ (by simp [totalsFrom])
    have hstep : mkdirStep r (pathJoin _HOME (pathJoin total name)) =
        logExistsCall r (pathJoin _HOME (pathJoin total name)) :=
      mkdirStep_of_mem _ _ hhead
    have htail : ∀ t ∈ totalsFrom (pathJoin total name) rest,
        normalizePath (pathJoin _HOME t) ∈
          (logExistsCall r (pathJoin _HOME (pathJoin total name))).fs := by
      intro t ht
      simpa [logExistsCall] using h t (by simp [totalsFrom, ht])
    have := ih (logExistsCall r (pathJoin _HOME (pathJoin total name))) (pathJoin total name) htail
    simp only [mkdirLoop, hstep]
    exact ⟨this.1.trans (logExistsCall_fs _ _), this.2.trans (logExistsCall_mkdirCalls _ _)⟩

theorem ensureDirs_eq (r : Remote) (dirs : String) :
    ensureDirs r dirs =
      if sftpExistsQ r (pathJoin _HOME dirs) then logExistsCall r (pathJoin _HOME dirs)
      else mkdirLoop (logExistsCall r (pathJoin _HOME dirs)) "" (pySplitSep dirs) := rfl

theorem ensureDirs_totals (r : Remote) (dirs : String) :
    ∀ t ∈ totalsFrom "" (pySplitSep dirs),
      normalizePath (pathJoin _HOME t) ∈ (ensureDirs r dirs).fs ∨
      (ensureDirs r dirs).fs = r.fs ∧
        normalizePath (pathJoin _HOME dirs) ∈ r.fs := by
  intro t ht
  rw [ensureDirs_eq]
  by_cases h : sftpExistsQ r (pathJoin _HOME dirs) = true
  · right
    exact ⟨by simp [h, logExistsCall_fs], (sftpExistsQ_iff _ _).mp h⟩
  · left
    simp only [Bool.not_eq_true] at h
    simp only [h, Bool.false_eq_true, if_false]
    exact mkdirLoop_totals _ _ _ t ht

/-! ## Helper lemmas: `pathSplit` on a slash-free path -/

theorem takeWhile_ne_slash_of_not_mem (l : List Char) (h : '/' ∉ l) :
    l.takeWhile (fun c => c != '/') = l := by
  induction l with
  | nil => rfl
  | cons c rest ih =>
    simp only [List.mem_cons, not_or] at h
    have hc : (c != '/') = true := by
      rw [bne_iff_ne]
      intro hcc
      exact h.1 hcc.symm
    simp [List.takeWhile_cons, hc, ih h.2]

theorem pathSplit_of_no_slash (p : String) (h : '/' ∉ p.data) :
    pathSplit p = ("", p) := by
  unfold pathSplit
  have hrev : '/' ∉ p.data.reverse := by simpa using h
  have htake : p.data.reverse.takeWhile (fun c => c != '/') = p.data.reverse :=
    takeWhile_ne_slash_of_not_mem _ hrev
  simp [htake]

/-! ## Claim theorems -/

/-- Claim C2: the directory-sync step of `EV3SSH.pybricks` is idempotent —
running `ensureDirs` a second time with the same `dirs` on the state the
first run produced issues zero additional `mkdir` calls and leaves the
remote filesystem unchanged, because every `mkdir` is preceded by an
existence check on the same prefix and prefixes are created shortest to
longest. -/
theorem C2_ensureDirs_idempotent (r : Remote) (dirs : String) :
    (ensureDirs (ensureDirs r dirs) dirs).mkdirCalls = (ensureDirs r dirs).mkdirCalls ∧
    (ensureDirs (ensureDirs r dirs) dirs).fs = (ensureDirs r dirs).fs := by
  by_cases h2 : sftpExistsQ (ensureDirs r dirs) (pathJoin _HOME dirs) = true
  · rw [ensureDirs_eq (ensureDirs r dirs) dirs]
    simp [h2, logExistsCall_mkdirCalls, logExistsCall_fs]
  · have hall : ∀ t ∈ totalsFrom "" (pySplitSep dirs),
        normalizePath (pathJoin _HOME t) ∈ (ensureDirs r dirs).fs := by
      intro t ht
      rcases ensureDirs_totals r dirs t ht with hmem | ⟨hfs, hdirs⟩
      · exact hmem
      · exact absurd ((sftpExistsQ_iff _ _).mpr (hfs ▸ hdirs)) h2
    have hall2 : ∀ t ∈ totalsFrom "" (pySplitSep dirs),
        normalizePath (pathJoin _HOME t) ∈
          (logExistsCall (ensureDirs r dirs) (pathJoin _HOME dirs)).fs := by
      intro t ht
      simpa [logExistsCall_fs] using hall t ht
    have hn := mkdirLoop_noop (pySplitSep dirs)
      (logExistsCall (ensureDirs r dirs) (pathJoin _HOME dirs)) "" hall2
    rw [ensureDirs_eq (ensureDirs r dirs) dirs]
    simp only [Bool.not_eq_true] at h2
    simp only [h2, Bool.false_eq_true, if_false]
    exact ⟨hn.2.trans (logExistsCall_mkdirCalls _ _), hn.1.trans (logExistsCall_fs _ _)⟩

/-- Claim C10: when the full remote parent directory already exists, the
per-prefix loop of the directory-sync step is skipped entirely — exactly
one remote existence check is issued (on the full parent path), no
per-prefix existence checks occur, no `mkdir` is issued, and the remote
filesystem state is unchanged. -/
theorem C10_existing_dir_skip (r : Remote) (dirs : String)
    (h : sftpExistsQ r (pathJoin _HOME dirs) = true) :
    ensureDirs r dirs = logExistsCall r (pathJoin _HOME dirs) ∧
    (ensureDirs r dirs).fs = r.fs ∧
    (ensureDirs r dirs).mkdirCalls = r.mkdirCalls ∧
    (ensureDirs r dirs).existsCalls = r.existsCalls ++ [pathJoin _HOME dirs] := by
  rw [ensureDirs_eq]
  simp [h, logExistsCall]

/-- Witness for C10: a remote on which `/home/robot/demo` already exists;
syncing `demo` issues the single existence check and nothing else. -/
theorem C10_witness :
    sftpExistsQ { fs := ["/home/robot", "/home/robot/demo"], existsCalls := [], mkdirCalls := [] }
        (pathJoin _HOME "demo") = true ∧
    (ensureDirs { fs := ["/home/robot", "/home/robot/demo"], existsCalls := [], mkdirCalls := [] }
        "demo").mkdirCalls = [] ∧
    (ensureDirs { fs := ["/home/robot", "/home/robot/demo"], existsCalls := [], mkdirCalls := [] }
        "demo").existsCalls = [pathJoin _HOME "demo"] := by
  have h : sftpExistsQ
      { fs := ["/home/robot", "/home/robot/demo"], existsCalls := [], mkdirCalls := [] }
      (pathJoin _HOME "demo") = true := by decide
  have := C10_existing_dir_skip
    { fs := ["/home/robot", "/home/robot/demo"], existsCalls := [], mkdirCalls := [] } "demo" h
  exact ⟨h, this.2.2.1, by rw [this.2.2.2]; rfl⟩

/-- Claim C7: for a file path with no directory component (deployed at the
remote root), the directory-creation step of `EV3SSH.pybricks` is a no-op:
`path.split` yields an empty `dirs`, the per-segment loop body executes
zero times (no per-prefix existence check, no `mkdir`), and only the
single existence check on `path.join(_HOME, "")` is issued — which
succeeds because the home directory exists on any connected session
(`sftp.chdir(_HOME)` succeeded at connect time, the stated hypothesis). -/
theorem C7_root_file_noop (r : Remote) (p : String)
    (hp : '/' ∉ p.data)
    (hh : sftpExistsQ r (pathJoin _HOME "") = true) :
    (pathSplit p).1 = "" ∧
    pybricksDirSync r p = logExistsCall r (pathJoin _HOME "") ∧
    (pybricksDirSync r p).mkdirCalls = r.mkdirCalls ∧
    (pybricksDirSync r p).fs = r.fs ∧
    (pybricksDirSync r p).existsCalls = r.existsCalls ++ [pathJoin _HOME ""] := by
  have hsplit : pathSplit p = ("", p) := pathSplit_of_no_slash p hp
  have hsync : pybricksDirSync r p = ensureDirs r "" := by
    unfold pybricksDirSync
    rw [hsplit]
  rw [hsync, ensureDirs_eq]
  simp [hh, hsplit, logExistsCall]

/-- Witness for C7: deploying `hello.py` against a remote where the home
directory exists performs no mkdir and no per-prefix check. -/
theorem C7_witness :
    ('/' ∉ "hello.py".data) ∧
    (pybricksDirSync { fs := ["/home/robot"], existsCalls := [], mkdirCalls := [] }
        "hello.py").mkdirCalls = [] ∧
    (pybricksDirSync { fs := ["/home/robot"], existsCalls := [], mkdirCalls := [] }
        "hello.py").existsCalls = [pathJoin _HOME ""] := by
  have hp : '/' ∉ "hello.py".data := by decide
  have hh : sftpExistsQ { fs := ["/home/robot"], existsCalls := [], mkdirCalls := [] }
      (pathJoin _HOME "") = true := by decide
  have := C7_root_file_noop
    { fs := ["/home/robot"], existsCalls := [], mkdirCalls := [] } "hello.py" hp hh
  exact ⟨hp, this.2.2.1, by rw [this.2.2.2.2]; rfl⟩

/-! ## Helper lemmas: the connection cache -/

theorem withCall_connections (s : ConnState) (c : RemoteCall) :
    (withCall s c).connections = s.connections := rfl

theorem withCall_handshakes (s : ConnState) (c : RemoteCall) :
    (withCall s c).handshakes = s.handshakes := rfl

theorem dictGet_dictPop (d : List (String × Client)) (k : String) :
    dictGet (dictPop d k) k = none := by
  induction d with
  | nil => rfl
  | cons kv rest ih =>
    obtain ⟨k2, v⟩ := kv
    by_cases h : k2 = k
    · simp [dictPop, h, ih]
    · simp [dictPop, dictGet, h, ih]

/-- Claim C1: a cache hit whose liveness probe succeeds returns the cached
handle unchanged — the only effect is the probe itself being issued; the
cache and the handshake count are untouched — and a second call on the
resulting state returns the very same handle again. -/
theorem C1_cached_probe_reuse (env : SSHEnv) (a : String) (s : ConnState) (c : Client)
    (h1 : dictGet s.connections a = some c) (h2 : env.probe c.id = .ok) :
    _get_connection env a s = (.ok c, withCall s probeCall) ∧
    (withCall s probeCall).connections = s.connections ∧
    (withCall s probeCall).handshakes = s.handshakes ∧
    _get_connection env a (withCall s probeCall) =
      (.ok c, withCall (withCall s probeCall) probeCall) := by
  have h1b : dictGet (withCall s probeCall).connections a = some c := h1
  refine ⟨?_, rfl, rfl, ?_⟩
  · simp only [_get_connection, h1, h2]
  · simp only [_get_connection, h1b, h2]

/-- Witness for C1: a state caching handle 0 for address `a` under an
environment whose probe succeeds. -/
theorem C1_witness :
    _get_connection { probe := fun _ => .ok, connectOk := true, sftpSetupOk := true } "a"
        { connections := [("a", { id := 0, sftp := some 0 })], nextId := 1, handshakes := 1,
          calls := [] } =
      (.ok { id := 0, sftp := some 0 },
        withCall
          { connections := [("a", { id := 0, sftp := some 0 })], nextId := 1, handshakes := 1,
            calls := [] } probeCall) ∧
    (withCall
        { connections := [("a", { id := 0, sftp := some 0 })], nextId := 1, handshakes := 1,
          calls := [] } probeCall).handshakes = 1 :=
  have h := C1_cached_probe_reuse
    { probe := fun _ => .ok, connectOk := true, sftpSetupOk := true } "a"
    { connections := [("a", { id := 0, sftp := some 0 })], nextId := 1, handshakes := 1,
      calls := [] }
    { id := 0, sftp := some 0 } (by decide) rfl
  ⟨h.1, h.2.2.1⟩

/-- Claim C5: when the probe on a cached handle fails with one of the
caught exception kinds (`AttributeError` for a corrupt handle,
`ChannelOpenError` for a dead channel), the entry is popped before the
reconnect is attempted; if the reconnect path then fails — at the
handshake or during the SFTP setup — the error propagates and the cache
holds no entry for the address. -/
theorem C5_probe_fail_evict_and_propagate (env : SSHEnv) (a : String) (s : ConnState)
    (c : Client) (h1 : dictGet s.connections a = some c)
    (h2 : env.probe c.id = .attributeError ∨ env.probe c.id = .channelOpenError)
    (h3 : env.connectOk = false ∨ env.sftpSetupOk = false) :
    ((_get_connection env a s).1 = .error .connectionError ∨
      (_get_connection env a s).1 = .error .sftpError) ∧
    (_get_connection env a s).2.connections = dictPop s.connections a ∧
    dictGet (_get_connection env a s).2.connections a = none := by
  have hbody : _get_connection env a s =
      reconnect env a
        { withCall s probeCall with connections := dictPop (withCall s probeCall).connections a } := by
    rcases h2 with h2 | h2 <;> simp only [_get_connection, h1, h2]
  have hpop : (withCall s probeCall).connections = s.connections := rfl
  rw [hbody]
  unfold reconnect
  rcases h3 with h3 | h3
  · rw [h3]
    simp only [Bool.false_eq_true, if_false]
    exact ⟨Or.inl trivial, rfl, by rw [withCall_connections]; exact dictGet_dictPop _ _⟩
  · by_cases hc : env.connectOk = true
    · rw [hc, h3]
      simp only [if_true, Bool.false_eq_true, if_false]
      exact ⟨Or.inr trivial, rfl, by rw [withCall_connections]; exact dictGet_dictPop _ _⟩
    · simp only [Bool.not_eq_true] at hc
      rw [hc]
      simp only [Bool.false_eq_true, if_false]
      exact ⟨Or.inl trivial, rfl, by rw [withCall_connections]; exact dictGet_dictPop _ _⟩

/-- Witness for C5: a dead cached handle and an unreachable device — the
call errors and the cache is left without the entry. -/
theorem C5_witness :
    ((_get_connection { probe := fun _ => .channelOpenError, connectOk := false, sftpSetupOk := true }
        "a"
        { connections := [("a", { id := 0, sftp := some 0 })], nextId := 1, handshakes := 1,
          calls := [] }).1 = .error .connectionError ∨
      (_get_connection { probe := fun _ => .channelOpenError, connectOk := false, sftpSetupOk := true }
        "a"
        { connections := [("a", { id := 0, sftp := some 0 })], nextId := 1, handshakes := 1,
          calls := [] }).1 = .error .sftpError) ∧
    (_get_connection { probe := fun _ => .channelOpenError, connectOk := false, sftpSetupOk := true }
        "a"
        { connections := [("a", { id := 0, sftp := some 0 })], nextId := 1, handshakes := 1,
          calls := [] }).2.connections =
      dictPop [("a", { id := 0, sftp := some 0 })] "a" ∧
    dictGet (_get_connection { probe := fun _ => .channelOpenError, connectOk := false, sftpSetupOk := true }
        "a"
        { connections := [("a", { id := 0, sftp := some 0 })], nextId := 1, handshakes := 1,
          calls := [] }).2.connections "a" = none :=
  C5_probe_fail_evict_and_propagate
    { probe := fun _ => .channelOpenError, connectOk := false, sftpSetupOk := true } "a"
    { connections := [("a", { id := 0, sftp := some 0 })], nextId := 1, handshakes := 1,
      calls := [] }
    { id := 0, sftp := some 0 } (by decide) (Or.inr rfl) (Or.inl rfl)

/-- Counterexample to claim C4 as stated: after a fully successful
`disconnect` of the session holding the cached handle for
`192.168.133.101`, the session cache still holds that very entry — the
source of `EV3SSH.disconnect` never touches `_connections`, so no eviction
happens. -/
theorem C4_counterexample :
    (EV3SSH.disconnect { client := some { id := 0, sftp := some 0 } }
        [("192.168.133.101", { id := 0, sftp := some 0 })]).1 =
      .ok [.sftpExit 0, .connClose 0] ∧
    dictGet (EV3SSH.disconnect { client := some { id := 0, sftp := some 0 } }
        [("192.168.133.101", { id := 0, sftp := some 0 })]).2 "192.168.133.101" =
      some { id := 0, sftp := some 0 } := by
  decide

/-- Claim C4 (amended): `EV3SSH.disconnect` closes the file-transfer
channel first and the underlying connection second, but does not remove
the `(address, handle)` entry from the session cache — the stale entry is
only evicted by the failed liveness probe of a later `_get_connection`
call. -/
theorem C4_close_order_cache_kept (self : EV3SSH) (cache : List (String × Client))
    (c : Client) (ch : Nat) (h1 : self.client = some c) (h2 : c.sftp = some ch) :
    EV3SSH.disconnect self cache = (.ok [.sftpExit ch, .connClose c.id], cache) := by
  simp only [EV3SSH.disconnect, h1, h2]

/-- Witness for the amended C4: an intact session; the close events come
in sftp-then-connection order and the cache is returned unchanged. -/
theorem C4_witness :
    EV3SSH.disconnect { client := some { id := 7, sftp := some 9 } }
        [("ev3", { id := 7, sftp := some 9 })] =
      (.ok [.sftpExit 9, .connClose 7], [("ev3", { id := 7, sftp := some 9 })]) :=
  C4_close_order_cache_kept { client := some { id := 7, sftp := some 9 } }
    [("ev3", { id := 7, sftp := some 9 })] { id := 7, sftp := some 9 } 9 rfl rfl

/-- Counterexample to claim C6 as stated: `EV3SSH.disconnect` has no
exception handling, so on a session whose connect failed partway (no
`client` attribute was ever assigned) the attribute access raises
`AttributeError` to the caller instead of being swallowed. -/
theorem C6_counterexample :
    (EV3SSH.disconnect { client := none } []).1 = .error .attributeError := by
  decide

/-- Claim C6 (amended): `EV3SSH.disconnect` performs no error handling;
when a prior operation left the session without an established client, the
error propagates to the caller (it is not swallowed). -/
theorem C6_disconnect_raises (self : EV3SSH) (cache : List (String × Client))
    (h : self.client = none) :
    (EV3SSH.disconnect self cache).1 = .error .attributeError := by
  simp only [EV3SSH.disconnect, h]

/-- Witness for the amended C6: a session whose connect raised, with a
non-empty cache. -/
theorem C6_witness :
    (EV3SSH.disconnect { client := none } [("x", { id := 3, sftp := some 3 })]).1 =
      .error .attributeError :=
  C6_disconnect_raises { client := none } [("x", { id := 3, sftp := some 3 })] rfl

/-- Claim C3: a remote process that emits a finite sequence of stderr
lines and then exits — with the loop reading each line before it observes
the exit, and the exit observed only once no buffered output remains —
makes the polling loop of `EV3SSH.pybricks` yield exactly the stripped
lines in emission order and then terminate (everything in the observation
list after the exit is ignored, and no error arises). -/
theorem C3_stream_yields_then_terminates (t : List Obs) (raws : List String)
    (h : EmitsThenExits t raws) :
    (pybricksOutputLoop t).1 = raws.map pyStrip := by
  induction h with
  | exit status rr rest => simp [pybricksOutputLoop]
  | timeout rest ls _ ih => simpa [pybricksOutputLoop] using ih
  | emit l rest ls _ ih => simpa [pybricksOutputLoop] using ih

/-- Witness for C3: a process emitting `a` then `b` (each line arriving
newline-terminated from `readline`, with an idle-timeout poll in between)
and then exiting; the loop yields exactly `a` then `b`, ignoring anything
after the observed exit. -/
theorem C3_witness :
    (pybricksOutputLoop
      [{ exitStatus := none, readResult := some "a\n" },
       { exitStatus := none, readResult := none },
       { exitStatus := none, readResult := some "b\n" },
       { exitStatus := some 0, readResult := none },
       { exitStatus := none, readResult := some "ignored" }]).1 = ["a", "b"] := by
  have h : EmitsThenExits
      [{ exitStatus := none, readResult := some "a\n" },
       { exitStatus := none, readResult := none },
       { exitStatus := none, readResult := some "b\n" },
       { exitStatus := some 0, readResult := none },
       { exitStatus := none, readResult := some "ignored" }] ["a\n", "b\n"] :=
    .emit _ _ _ (.timeout _ _ (.emit _ _ _ (.exit 0 none _)))
  rw [C3_stream_yields_then_terminates _ _ h]
  decide

/-- Counterexample to claim C9 as stated: the cached-handle liveness probe
is issued with no timeout at all — `await _connections[address].run("pwd")`
is awaited bare — so the probe is not bounded by a short timeout.  The call
trace of a cache-hit `_get_connection` run consists of exactly that
unbounded probe. -/
theorem C9_counterexample :
    (_get_connection { probe := fun _ => .ok, connectOk := true, sftpSetupOk := true } "a"
        { connections := [("a", { id := 0, sftp := some 0 })], nextId := 1, handshakes := 1,
          calls := [] }).2.calls = [probeCall] ∧
    probeCall.timeoutMs = none := by
  constructor
  · rfl
  · rfl

/-- Claim C9 (amended): only the reads of the output-polling loop are
bounded by a timeout (100 ms each); the liveness probe — like the connect
and SFTP calls — is awaited with no timeout. -/
theorem C9_timeouts (t : List Obs) :
    (∀ c ∈ (pybricksOutputLoop t).2, c.timeoutMs = some 100) ∧
    probeCall.timeoutMs = none ∧ connectCall.timeoutMs = none ∧
    sftpStartCall.timeoutMs = none ∧ sftpChdirCall.timeoutMs = none := by
  refine ⟨?_, rfl, rfl, rfl, rfl⟩
  induction t with
  | nil => intro c hc; simp [pybricksOutputLoop] at hc
  | cons o rest ih =>
    intro c hc
    by_cases he : ∃ st, o.exitStatus = some st
    · obtain ⟨st, hst⟩ := he
      simp [pybricksOutputLoop, hst] at hc
    · have hst : o.exitStatus = none := by
        cases h : o.exitStatus with
        | none => rfl
        | some st => exact absurd ⟨st, h⟩ he
      cases hr : o.readResult with
      | some line =>
        simp only [pybricksOutputLoop, hst, hr, List.mem_cons] at hc
        rcases hc with hc | hc
        · rw [hc]; rfl
        · exact ih c hc
      | none =>
        simp only [pybricksOutputLoop, hst, hr, List.mem_cons] at hc
        rcases hc with hc | hc
        · rw [hc]; rfl
        · exact ih c hc

/-- Witness for the amended C9: on a one-iteration trace the issued read
carries the 100 ms bound, while the probe carries none. -/
theorem C9_witness :
    readlineCall.timeoutMs = some 100 ∧ probeCall.timeoutMs = none :=
  ⟨(C9_timeouts [{ exitStatus := none, readResult := none }]).1 readlineCall (by decide),
   (C9_timeouts []).2.1⟩

/-- Counterexample to claim C8 as stated: with an empty cache and a
reachable device, the cooperative schedule that lets both tasks pass their
cache lookup before either completes its handshake makes the two
concurrent `_get_connection("a")` calls perform two handshakes and finish
with two distinct clients — not one handshake and one shared connection.
The source holds no lock around the `await asyncssh.connect(...)`
suspension point, so this interleaving is reachable. -/
theorem C8_counterexample :
    (interleaveTwo { probe := fun _ => .ok, connectOk := true, sftpSetupOk := true } "a"
        [false, true, false, true, false, true] (.start, .start)
        { connections := [], nextId := 0, handshakes := 0, calls := [] }).2.handshakes = 2 ∧
    (interleaveTwo { probe := fun _ => .ok, connectOk := true, sftpSetupOk := true } "a"
        [false, true, false, true, false, true] (.start, .start)
        { connections := [], nextId := 0, handshakes := 0, calls := [] }).1.1 =
      .finished (.ok { id := 0, sftp := some 0 }) ∧
    (interleaveTwo { probe := fun _ => .ok, connectOk := true, sftpSetupOk := true } "a"
        [false, true, false, true, false, true] (.start, .start)
        { connections := [], nextId := 0, handshakes := 0, calls := [] }).1.2 =
      .finished (.ok { id := 1, sftp := some 1 }) ∧
    ({ id := 0, sftp := some 0 } : Client) ≠ { id := 1, sftp := some 1 } := by
  decide

/-- Claim C8 (amended): `_get_connection` enforces no per-address mutual
exclusion — two concurrent calls for the same address that both observe a
missing (or dead) entry before either stores its result each perform a
handshake and receive distinct handles; the cache afterwards retains only
the handle stored last. -/
theorem C8_two_handshakes :
    (interleaveTwo { probe := fun _ => .ok, connectOk := true, sftpSetupOk := true } "a"
        [false, true, false, true, false, true] (.start, .start)
        { connections := [], nextId := 0, handshakes := 0, calls := [] }).2.handshakes = 2 ∧
    dictGet (interleaveTwo { probe := fun _ => .ok, connectOk := true, sftpSetupOk := true } "a"
        [false, true, false, true, false, true] (.start, .start)
        { connections := [], nextId := 0, handshakes := 0, calls := [] }).2.connections "a" =
      some { id := 1, sftp := some 1 } := by
  decide

end Ev3dev
